import Mathlib

/-!
Verification of the settfex session/fetch core.

Shallow embedding of the parts of the `settfex` repository that the frozen
claims are about:

* `settfex/utils/session_cache.py` — `SessionCache` (diskcache-backed cookie
  store with TTL expiry),
* `settfex/utils/session_manager.py` — `SessionManager` (per-origin warmup
  manager, singleton registry, bot-detection retry),
* `settfex/utils/data_fetcher.py` — `AsyncDataFetcher` (header preparation,
  retry loop with exponential backoff, UTF-8/latin1 decoding),
* `settfex/services/set/stock/utils.py` — symbol/language normalization,
* `settfex/services/set/stock/board_of_director.py` — validation-before-network
  behaviour of an endpoint service.

Python dicts are modelled as association lists with in-place update semantics
(`alistSet`); Python's mutation of a caller-supplied dict is modelled by
returning the mutated dict.  Time (`time.time()`) is modelled as a `Nat`
parameter threaded through the state transitions; wall-clock sleeping and
logging are effect-free in the model (sleeps are recorded as data where a claim
is about them).  Exceptions are modelled with `Option`/`Except`.
-/

set_option autoImplicit false

namespace Settfex

/-! ## Association lists: the embedding of Python `dict`

`alistSet` models `d[k] = v`: it overwrites the value in place if the key is
present (keeping its position, as Python dicts do) and appends otherwise.
`alistGet` models `d.get(k)`. -/

def alistGet {α : Type} (l : List (String × α)) (k : String) : Option α :=
  match l with
  | [] => none
  | (k', v) :: rest => if k' = k then some v else alistGet rest k

def alistSet {α : Type} (l : List (String × α)) (k : String) (v : α) :
    List (String × α) :=
  match l with
  | [] => [(k, v)]
  | (k', v') :: rest =>
    if k' = k then (k, v) :: rest else (k', v') :: alistSet rest k v

/-- Python `d.update(other)`: repeated `d[k] = v` over the entries of `other`. -/
def alistUpdate {α : Type} (l extra : List (String × α)) : List (String × α) :=
  extra.foldl (fun acc kv => alistSet acc kv.1 kv.2) l

/-- Membership of a key, `k in d` in Python. -/
def alistHasKey {α : Type} (l : List (String × α)) (k : String) : Bool :=
  (alistGet l k).isSome

/-- Python `pat in hay` on strings (substring containment), over the
character lists. -/
def containsSub (hay pat : List Char) : Bool :=
  match hay with
  | [] => pat.isEmpty
  | _ :: t => pat.isPrefixOf hay || containsSub t pat

/-- Python `pat in s` for strings. -/
def strContains (s pat : String) : Bool :=
  containsSub s.toList pat.toList

/-- ASCII lower-casing of one character (Python `str.lower()` restricted to
ASCII, which coincides with it on every string this code compares). -/
def asciiLowerChar (c : Char) : Char :=
  if 'A' ≤ c ∧ c ≤ 'Z' then Char.ofNat (c.toNat + 32) else c

/-- ASCII upper-casing of one character. -/
def asciiUpperChar (c : Char) : Char :=
  if 'a' ≤ c ∧ c ≤ 'z' then Char.ofNat (c.toNat - 32) else c

/-- Python `s.lower()` (ASCII fragment). -/
def pyLower (s : String) : String :=
  ⟨s.toList.map asciiLowerChar⟩

/-- Python `s.upper()` (ASCII fragment). -/
def pyUpper (s : String) : String :=
  ⟨s.toList.map asciiUpperChar⟩

/-! ## Byte-string decoding (`data_fetcher.py` lines 493-502)

`AsyncDataFetcher.fetch` decodes the response body with
`response.content.decode("utf-8")` and falls back to
`response.content.decode("latin1")` on `UnicodeDecodeError`.  Bytes are
modelled as `Nat` values `< 256` and decoded text as the list of Unicode code
points of the resulting Python `str`.

`utf8Decode` embeds CPython's strict UTF-8 decoder: it rejects stray
continuation bytes, overlong encodings (lead bytes `0xC0`/`0xC1`, and the
restricted ranges after `0xE0`/`0xF0`), surrogate code points (restricted
range after `0xED`), code points above `U+10FFFF` (lead bytes `≥ 0xF5`, and
the restricted range after `0xF4`), and truncated sequences.  `latin1Decode`
maps byte `b` to code point `b` and succeeds on every byte string. -/

/-- Decode one UTF-8 sequence: given the lead byte `b` and the remaining
bytes, return the code point and the bytes left over (CPython's strict
decoder: continuation bytes in `[0x80, 0xBF]`, no overlong forms, no
surrogates, nothing above `U+10FFFF`). -/
def utf8DecodeOne (b : Nat) (rest : List Nat) : Option (Nat × List Nat) :=
  if b < 0x80 then some (b, rest)
  else if b < 0xC2 then none
  else if b < 0xE0 then
    match rest with
    | c1 :: rest2 =>
      if 0x80 ≤ c1 ∧ c1 < 0xC0 then
        some ((b - 0xC0) * 0x40 + (c1 - 0x80), rest2)
      else none
    | [] => none
  else if b < 0xF0 then
    match rest with
    | c1 :: c2 :: rest3 =>
      if (if b = 0xE0 then 0xA0 else 0x80) ≤ c1 ∧
          c1 ≤ (if b = 0xED then 0x9F else 0xBF) ∧
          0x80 ≤ c2 ∧ c2 < 0xC0 then
        some ((b - 0xE0) * 0x1000 + (c1 - 0x80) * 0x40 + (c2 - 0x80), rest3)
      else none
    | _ => none
  else if b < 0xF5 then
    match rest with
    | c1 :: c2 :: c3 :: rest4 =>
      if (if b = 0xF0 then 0x90 else 0x80) ≤ c1 ∧
          c1 ≤ (if b = 0xF4 then 0x8F else 0xBF) ∧
          0x80 ≤ c2 ∧ c2 < 0xC0 ∧ 0x80 ≤ c3 ∧ c3 < 0xC0 then
        some ((b - 0xF0) * 0x40000 + (c1 - 0x80) * 0x1000 +
          (c2 - 0x80) * 0x40 + (c3 - 0x80), rest4)
      else none
    | _ => none
  else none

/-- A Unicode scalar value: in range and not a surrogate. -/
def ValidCodePoint (x : Nat) : Prop :=
  x < 0x110000 ∧ ¬(0xD800 ≤ x ∧ x < 0xE000)

instance (x : Nat) : Decidable (ValidCodePoint x) := by
  unfold ValidCodePoint; infer_instance

/-- The recursive driver, structurally recursive on a fuel argument so that
the definition computes in the kernel; `utf8Decode` passes the list length as
fuel, which `utf8DecodeAux_congr` shows is always sufficient (each step
consumes at least the lead byte). -/
def utf8DecodeAux : Nat → List Nat → Option (List Nat)
  | _, [] => some []
  | 0, _ :: _ => none
  | fuel + 1, b :: rest =>
    match utf8DecodeOne b rest with
    | none => none
    | some (cp, rest') => (utf8DecodeAux fuel rest').map (fun cps => cp :: cps)

/-- CPython's strict `bytes.decode("utf-8")` over byte lists, yielding the
code points on success and `none` on `UnicodeDecodeError`. -/
def utf8Decode (l : List Nat) : Option (List Nat) :=
  utf8DecodeAux l.length l


/-- Python `bytes.decode("latin1")`: byte `b` becomes code point `b`; total. -/
def latin1Decode (content : List Nat) : List Nat := content

/-- The `try: decode utf-8 / except: decode latin1` block of `fetch`
(`data_fetcher.py` lines 493-502): returns the decoded text together with the
`encoding` value recorded in the `FetchResponse`. -/
def decodeContent (content : List Nat) : List Nat × String :=
  match utf8Decode content with
  | some cps => (cps, "utf-8")
  | none => (latin1Decode content, "latin1")

/-! ## Fetch engine (`data_fetcher.py`)

`FetcherConfig` (lines 16-43): only the fields the claims depend on keep
behavioural meaning; pydantic range validation is not claimed so the bounds
are not modelled.  `retry_delay`/`rate_limit_delay` are floats in the source,
modelled over `ℚ`. -/

structure FetcherConfig where
  browser_impersonate : String
  timeout : Nat
  max_retries : Nat
  retry_delay : Rat
  rate_limit_delay : Rat
  use_session : Bool
  user_agent : Option String
deriving DecidableEq

/-- The pydantic field defaults of `FetcherConfig`. -/
def defaultFetcherConfig : FetcherConfig :=
  { browser_impersonate := "chrome120"
    timeout := 30
    max_retries := 3
    retry_delay := 1
    rate_limit_delay := 0
    use_session := true
    user_agent := none }

/-- Raw transport response (the curl_cffi response object, as much of it as
`fetch` reads: `status_code`, `content`, `headers`, `url`). -/
structure RawResponse where
  status_code : Nat
  content : List Nat
  headers : List (String × String)
  url : String
deriving DecidableEq

/-- Model of `FetchResponse` (`data_fetcher.py` lines 74-93).  `text` is the list of
code points of the decoded Python string; `elapsed` (a wall-clock duration)
carries no logical content and is omitted from the model. -/
structure FetchResponse where
  status_code : Nat
  content : List Nat
  text : List Nat
  headers : List (String × String)
  url : String
  encoding : String
deriving DecidableEq

/-- Construction of the `FetchResponse` on a successful attempt
(`data_fetcher.py` lines 493-513). -/
def mkFetchResponse (raw : RawResponse) : FetchResponse :=
  { status_code := raw.status_code
    content := raw.content
    text := (decodeContent raw.content).1
    headers := raw.headers
    url := raw.url
    encoding := (decodeContent raw.content).2 }

/-- The `default_headers` dict built at the top of `fetch`
(`data_fetcher.py` lines 443-455). -/
def fetchDefaultHeaders : List (String × String) :=
  [("Accept",
      "text/html,application/json,application/xhtml+xml,application/xml;q=0.9,*/*;q=0.8"),
   ("Accept-Language", "th-TH,th;q=0.9,en-US;q=0.8,en;q=0.7"),
   ("Accept-Encoding", "gzip, deflate, br"),
   ("DNT", "1"),
   ("Connection", "keep-alive"),
   ("Upgrade-Insecure-Requests", "1"),
   ("Sec-Fetch-Dest", "document"),
   ("Sec-Fetch-Mode", "navigate"),
   ("Sec-Fetch-Site", "none"),
   ("Sec-Fetch-User", "?1"),
   ("Cache-Control", "max-age=0")]

/-- Header preparation in `fetch` (`data_fetcher.py` lines 442-469), in source
order: start from `default_headers`; if `config.user_agent` is set, assign
`default_headers["User-Agent"]`; then `default_headers.update(headers)` for
caller-supplied headers; finally assign the `Cookie` header from the explicit
`cookies` argument, or from the generated random cookie string when
`use_random_cookies` is true (`randomCookies` stands for the output of
`_generate_random_cookies`, whose value is randomized). -/
def prepareHeaders (cfg : FetcherConfig) (headers : Option (List (String × String)))
    (cookies : Option String) (use_random_cookies : Bool)
    (randomCookies : String) : List (String × String) :=
  let d0 := fetchDefaultHeaders
  let d1 := match cfg.user_agent with
    | some ua => alistSet d0 "User-Agent" ua
    | none => d0
  let d2 := match headers with
    | some hs => alistUpdate d1 hs
    | none => d1
  match cookies with
  | some c => alistSet d2 "Cookie" c
  | none =>
    if use_random_cookies then alistSet d2 "Cookie" randomCookies else d2

/-- Outcome of the retry loop: a successful raw response or the last
underlying exception, in both cases with the number of transport invocations
and the list of back-off delays slept between consecutive attempts. -/
inductive AttemptsResult where
  | ok (resp : RawResponse) (invocations : Nat) (sleeps : List Rat)
  | fail (lastExn : Option String) (invocations : Nat) (sleeps : List Rat)
deriving DecidableEq

/-- The `for attempt in range(self.config.max_retries + 1)` loop of `fetch`
(`data_fetcher.py` lines 479-533), with the body's success/exception split:
on success the loop returns; on exception the last exception is recorded and,
if attempts remain, the loop sleeps `retry_delay * 2 ** attempt` before the
next attempt (no sleep after the final attempt).  `attempt` is the index of
the current attempt and `remaining` the number of attempts left. -/
def runAttempts (transport : Nat → Except String RawResponse) (delay : Rat) :
    Nat → Nat → AttemptsResult
  | _, 0 => .fail none 0 []
  | attempt, remaining + 1 =>
    match transport attempt with
    | .ok r => .ok r 1 []
    | .error e =>
      if remaining = 0 then
        .fail (some e) 1 []
      else
        match runAttempts transport delay (attempt + 1) remaining with
        | .ok r inv sleeps => .ok r (inv + 1) (delay * 2 ^ attempt :: sleeps)
        | .fail last inv sleeps =>
          .fail last (inv + 1) (delay * 2 ^ attempt :: sleeps)

/-- The aggregated failure raised when all retries are exhausted
(`data_fetcher.py` lines 536-539): `Exception(f"Failed to fetch {url} after
{n+1} attempts") from last_exception`. -/
structure FetchError where
  message : String
  cause : Option String
deriving DecidableEq

/-- Statistics of one `fetch` call: transport invocations and back-off sleeps
(in order). -/
structure FetchStats where
  invocations : Nat
  sleeps : List Rat
deriving DecidableEq

def fetchErrorMessage (url : String) (attempts : Nat) : String :=
  "Failed to fetch " ++ url ++ " after " ++ toString attempts ++ " attempts"

/-- Embedding of `AsyncDataFetcher.fetch` (`data_fetcher.py` lines 409-539): prepare
headers, then run the retry loop; every attempt dispatches the request with
the same prepared header set.  Rate limiting (lines 471-477) only inserts a
wall-clock sleep before the loop and is not modelled.  The transport stands
for `_make_request` and is indexed by the attempt number; it returns the raw
response or the exception message it raised. -/
def fetch (cfg : FetcherConfig) (url : String)
    (headers : Option (List (String × String))) (cookies : Option String)
    (use_random_cookies : Bool) (randomCookies : String)
    (transport : List (String × String) → Nat → Except String RawResponse) :
    Except FetchError FetchResponse × FetchStats :=
  let hdrs := prepareHeaders cfg headers cookies use_random_cookies randomCookies
  match runAttempts (transport hdrs) cfg.retry_delay 0 (cfg.max_retries + 1) with
  | .ok r inv sleeps =>
    (.ok (mkFetchResponse r), { invocations := inv, sleeps := sleeps })
  | .fail last inv sleeps =>
    (.error { message := fetchErrorMessage url (cfg.max_retries + 1), cause := last },
      { invocations := inv, sleeps := sleeps })

/-! ## SessionCache (`session_cache.py`)

The cached values are Python dicts whose entries are strings, numbers (times,
counts) or cookie maps; modelled by `PyVal`.  The backing `diskcache.Cache`
stores, for `set(key, value, expire=ttl)`, an absolute expiry time
`now + ttl`; its `get` treats an entry as missing once the current time
exceeds that expiry.  Time is a `Nat` parameter (Python uses a float clock;
all claims quantify over a monotonically advancing clock, where truncated
`Nat` subtraction agrees with the Python arithmetic). -/

inductive PyVal where
  | str (s : String)
  | num (n : Nat)
  | cookies (m : List (String × String))
deriving DecidableEq

/-- A Python dict as stored in the cache. -/
abbrev PyDict := List (String × PyVal)

/-- Python `d.get(k, dflt)` for a numeric entry. -/
def pyNum (d : PyDict) (k : String) (dflt : Nat) : Nat :=
  match alistGet d k with
  | some (.num n) => n
  | _ => dflt

/-- Python `d.get("cookies", {})`: the cookie map stored under `k`, or empty. -/
def pyCookies (d : PyDict) (k : String) : List (String × String) :=
  match alistGet d k with
  | some (.cookies m) => m
  | _ => []

/-- One row of the backing diskcache store. -/
structure StoreEntry where
  value : PyDict
  expire_at : Nat
deriving DecidableEq

/-- State of a `SessionCache` (`session_cache.py` lines 23-231): the backing
disk store plus `default_ttl`. -/
structure SessionCacheState where
  store : List (String × StoreEntry)
  default_ttl : Nat
deriving DecidableEq

/-- A `SessionCache(default_ttl=...)` over an empty store. -/
def emptySessionCache (default_ttl : Nat) : SessionCacheState :=
  { store := [], default_ttl := default_ttl }

/-- Python `ttl = ttl or self.default_ttl` (`session_cache.py` line 135) and
`max_age = max_age or self.default_ttl` (line 181): both `None` and `0` are
falsy, so a zero argument silently falls back to `default_ttl`. -/
def effectiveTtl (c : SessionCacheState) (ttl : Option Nat) : Nat :=
  match ttl with
  | none => c.default_ttl
  | some t => if t = 0 then c.default_ttl else t

/-- `SessionCache.get` (`session_cache.py` lines 81-107): a diskcache read
that yields `None` for a missing key or one whose expiry time has passed. -/
def cacheGet (c : SessionCacheState) (key : String) (now : Nat) :
    Option PyDict :=
  match alistGet c.store key with
  | none => none
  | some e => if e.expire_at < now then none else some e.value

/-- `SessionCache.set` (`session_cache.py` lines 109-145): computes the
effective TTL, then mutates the caller's dict in place
(`value["cached_at"] = time.time()`, `value["ttl"] = ttl`) and stores that
same dict with `expire=ttl`.  Returns the new cache state, the mutated dict
(Python mutates the caller's object) and the success flag. -/
def cacheSet (c : SessionCacheState) (key : String) (value : PyDict)
    (ttl : Option Nat) (now : Nat) : SessionCacheState × PyDict × Bool :=
  let t := effectiveTtl c ttl
  let mutated := alistSet (alistSet value "cached_at" (.num now)) "ttl" (.num t)
  ({ c with store := alistSet c.store key { value := mutated, expire_at := now + t } },
    mutated, true)

/-- Key removal from the backing store. -/
def alistRemove {α : Type} (l : List (String × α)) (k : String) :
    List (String × α) :=
  match l with
  | [] => []
  | (k', v) :: rest =>
    if k' = k then alistRemove rest k else (k', v) :: alistRemove rest k

/-- `SessionCache.delete` (`session_cache.py` lines 147-164). -/
def cacheDelete (c : SessionCacheState) (key : String) : SessionCacheState :=
  { c with store := alistRemove c.store key }

/-- `SessionCache.is_expired` (`session_cache.py` lines 166-191): `get` the
entry (missing → expired); otherwise compare
`time.time() - cached.get("cached_at", 0)` against the effective `max_age`. -/
def cacheIsExpired (c : SessionCacheState) (key : String)
    (max_age : Option Nat) (now : Nat) : Bool :=
  match cacheGet c key now with
  | none => true
  | some cached =>
    let ma := effectiveTtl c max_age
    let cached_at := pyNum cached "cached_at" 0
    decide (now - cached_at > ma)

/-! ## SessionManager (`session_manager.py`)

State of one `SessionManager` instance.  The curl_cffi session is modelled by
its cookie jar (`Option` distinguishes "no session object yet"); `ready`
models the `_initialized` flag.  The outcome of a warmup GET — the only
environment interaction of `ensure_initialized` — is an explicit
`WarmupOutcome` argument. -/

structure ManagerState where
  browser : String
  warmup_site : String
  enable_cache : Bool
  cache_ttl : Nat
  session : Option (List (String × String))
  ready : Bool
  last_warmup_time : Nat
  warmup_interval : Nat
  cache_key : String
deriving DecidableEq

/-- `SessionManager.__init__` (`session_manager.py` lines 69-101):
`warmup_site` is lower-cased for the instance attribute, but `_cache_key` is
built from the raw parameter; `_warmup_interval = cache_ttl`;
`_initialized = False`; `_last_warmup_time = 0.0`; no session object yet. -/
def mkSessionManager (browser : String) (cache_ttl : Nat)
    (enable_cache : Bool) (warmup_site : String) : ManagerState :=
  { browser := browser
    warmup_site := pyLower warmup_site
    enable_cache := enable_cache
    cache_ttl := cache_ttl
    session := none
    ready := false
    last_warmup_time := 0
    warmup_interval := cache_ttl
    cache_key := warmup_site ++ "_session_" ++ browser }

/-- Registry key of `SessionManager.get_instance` (`session_manager.py` line
119): `f"{warmup_site}_{browser}"`.  The registry holds one instance per key,
so distinct keys have distinct cookie jars. -/
def instanceKey (warmup_site browser : String) : String :=
  warmup_site ++ "_" ++ browser

/-- Origin detection of `get_session_for_url` (`session_manager.py` lines
467-493): `"tfex" if "tfex.co.th" in url.lower() else "set"`. -/
def warmupSiteForUrl (url : String) : String :=
  if strContains (pyLower url) "tfex.co.th" then "tfex" else "set"

/-- Registry key of the manager that `AsyncDataFetcher._make_request`
(`data_fetcher.py` lines 379-388) dispatches through when
`config.use_session` is true: the call is
`get_shared_session(browser=self.config.browser_impersonate)`, which leaves
the `warmup_site` parameter at its default `"set"`
(`session_manager.py` lines 438-464); the fetched URL plays no part in the
selection. -/
def makeRequestInstanceKey (cfg : FetcherConfig) (_url : String) : String :=
  instanceKey "set" cfg.browser_impersonate

/-- Outcome of a warmup GET: a transport exception, or a response with a
status code and the cookies it sets. -/
inductive WarmupOutcome where
  | exn (msg : String)
  | resp (status_code : Nat) (cookies : List (String × String))
deriving DecidableEq

/-- Result of `_try_load_from_cache`. -/
structure LoadResult where
  st : ManagerState
  cache : SessionCacheState
  loaded : Bool
deriving DecidableEq

/-- `SessionManager._try_load_from_cache` (`session_manager.py` lines
160-213): cache disabled or miss → `False`; expired entry → delete it and
`False`; entry without cookies → `False`; otherwise restore the cached
cookies into the session jar, set `_initialized`, and take
`_last_warmup_time` from the entry (defaulting to the current time). -/
def tryLoadFromCache (st : ManagerState) (cache : SessionCacheState)
    (now : Nat) : LoadResult :=
  if st.enable_cache = false then ⟨st, cache, false⟩
  else
    match cacheGet cache st.cache_key now with
    | none => ⟨st, cache, false⟩
    | some cached =>
      if cacheIsExpired cache st.cache_key (some st.cache_ttl) now then
        ⟨st, cacheDelete cache st.cache_key, false⟩
      else
        let cookies_dict := pyCookies cached "cookies"
        if cookies_dict.isEmpty then ⟨st, cache, false⟩
        else
          let jar := alistUpdate (st.session.getD []) cookies_dict
          ⟨{ st with
              session := some jar
              ready := true
              last_warmup_time := pyNum cached "warmup_time" now },
            cache, true⟩

/-- `SessionManager._save_to_cache` (`session_manager.py` lines 215-258):
no-op when caching is disabled, there is no session, or the jar is empty;
otherwise `cache.set(self._cache_key, {"cookies": ..., "browser": ...,
"warmup_time": self._last_warmup_time, "cookie_count": ...},
ttl=self.cache_ttl)`. -/
def saveToCache (st : ManagerState) (cache : SessionCacheState) (now : Nat) :
    SessionCacheState :=
  if st.enable_cache = false then cache
  else
    match st.session with
    | none => cache
    | some jar =>
      if jar.isEmpty then cache
      else
        (cacheSet cache st.cache_key
          [("cookies", .cookies jar), ("browser", .str st.browser),
            ("warmup_time", .num st.last_warmup_time),
            ("cookie_count", .num jar.length)]
          (some st.cache_ttl) now).1

/-- Result of `ensure_initialized`: the new manager and cache states, whether
a warmup GET was issued, and whether the cache fast path was taken. -/
structure EnsureResult where
  st : ManagerState
  cache : SessionCacheState
  warmed : Bool
  loadedFromCache : Bool
deriving DecidableEq

/-- `SessionManager.ensure_initialized` (`session_manager.py` lines 261-360).
Fast path: unless forcing (or already initialized), try the cache.  Then
`needs_warmup = force or not initialized or now - last_warmup > interval`;
if needed, issue the warmup GET (creating the session object first if
absent).  On status 200: mark initialized, record the timestamp, save to
cache.  On any other status: mark initialized and record the timestamp, but
save nothing.  On a transport exception: mark initialized only, leaving
`_last_warmup_time` untouched.  `wu` is the warmup GET's outcome (consulted
only when a warmup is actually issued); a non-exception response's cookies
are accumulated into the session jar by the transport. -/
def ensureInitialized (st : ManagerState) (cache : SessionCacheState)
    (force_warmup : Bool) (now : Nat) (wu : WarmupOutcome) : EnsureResult :=
  let afterLoad :=
    if force_warmup = false ∧ st.ready = false then
      tryLoadFromCache st cache now
    else ⟨st, cache, false⟩
  if afterLoad.loaded then
    ⟨afterLoad.st, afterLoad.cache, false, true⟩
  else
    let st1 := afterLoad.st
    let cache1 := afterLoad.cache
    let needs_warmup :=
      force_warmup = true ∨ st1.ready = false ∨
        now - st1.last_warmup_time > st1.warmup_interval
    if needs_warmup then
      match wu with
      | .exn _ =>
        -- the try block creates the session object before the GET raises
        ⟨{ st1 with session := some (st1.session.getD []), ready := true },
          cache1, true, false⟩
      | .resp status cookies =>
        let jar := alistUpdate (st1.session.getD []) cookies
        let st2 := { st1 with
          session := some jar
          ready := true
          last_warmup_time := now }
        if status = 200 then
          ⟨st2, saveToCache st2 cache1 now, true, false⟩
        else
          ⟨st2, cache1, true, false⟩
    else
      ⟨st1, cache1, false, false⟩

/-- Raw response of a `SessionManager.get` request: status code and the
cookies the response sets. -/
structure SmResponse where
  status_code : Nat
  cookies : List (String × String)
deriving DecidableEq

/-- Observable effects of one `SessionManager.get` call. -/
structure SmGetStats where
  apiCalls : Nat
  warmups : Nat
  cacheDeleted : Bool
deriving DecidableEq

instance {ε α : Type} [DecidableEq ε] [DecidableEq α] :
    DecidableEq (Except ε α) := fun a b =>
  match a, b with
  | .error e1, .error e2 =>
    if h : e1 = e2 then isTrue (by rw [h])
    else isFalse (by intro hh; cases hh; exact h rfl)
  | .error _, .ok _ => isFalse (by intro h; exact Except.noConfusion h)
  | .ok _, .error _ => isFalse (by intro h; exact Except.noConfusion h)
  | .ok v1, .ok v2 =>
    if h : v1 = v2 then isTrue (by rw [h])
    else isFalse (by intro hh; cases hh; exact h rfl)

/-- Result of `SessionManager.get`: `Except` models the `RuntimeError` raised
when no session object exists after initialization. -/
structure SmGetResult where
  response : Except String SmResponse
  st : ManagerState
  cache : SessionCacheState
  stats : SmGetStats
deriving DecidableEq

/-- `SessionManager.get` (`session_manager.py` lines 362-426):
`ensure_initialized()`; raise if there is still no session object; issue the
GET (`responses 0`); if auto-retry is on and the status is 403 or 452, delete
the cache entry (when caching is enabled), `ensure_initialized(force_warmup=
True)` and issue the GET exactly once more (`responses 1`), returning that
second response whatever its status; otherwise return the first response.
`responses` indexes the API GET outcomes in call order, `wus` the warmup
outcomes in warmup order. -/
def smGet (st : ManagerState) (cache : SessionCacheState) (auto_retry : Bool)
    (now : Nat) (responses : Nat → SmResponse) (wus : Nat → WarmupOutcome) :
    SmGetResult :=
  let e1 := ensureInitialized st cache false now (wus 0)
  match e1.st.session with
  | none =>
    ⟨.error "Session not initialized", e1.st, e1.cache,
      ⟨0, if e1.warmed then 1 else 0, false⟩⟩
  | some jar =>
    let r1 := responses 0
    let jar1 := alistUpdate jar r1.cookies
    let st1 := { e1.st with session := some jar1 }
    if auto_retry = true ∧ (r1.status_code = 403 ∨ r1.status_code = 452) then
      let cache2 :=
        if st1.enable_cache then cacheDelete e1.cache st1.cache_key
        else e1.cache
      let e2 := ensureInitialized st1 cache2 true now
        (wus (if e1.warmed then 1 else 0))
      let r2 := responses 1
      let jar2 := alistUpdate (e2.st.session.getD []) r2.cookies
      ⟨.ok r2, { e2.st with session := some jar2 }, e2.cache,
        ⟨2, (if e1.warmed then 1 else 0) + 1, st1.enable_cache⟩⟩
    else
      ⟨.ok r1, st1, e1.cache, ⟨1, if e1.warmed then 1 else 0, false⟩⟩

/-! ## Symbol/language normalization (`services/set/stock/utils.py`) and the
validation prefix of `BoardOfDirectorService.fetch_board_of_directors`
(`services/set/stock/board_of_director.py` lines 70-94). -/

/-- The character class stripped by Python `str.strip()` (Unicode whitespace
as recognised by `str.isspace`). -/
def pyIsSpace (c : Char) : Bool :=
  let n := c.toNat
  decide ((9 ≤ n ∧ n ≤ 13) ∨ (28 ≤ n ∧ n ≤ 31) ∨ n = 32 ∨ n = 0x85 ∨
    n = 0xA0 ∨ n = 0x1680 ∨ (0x2000 ≤ n ∧ n ≤ 0x200A) ∨ n = 0x2028 ∨
    n = 0x2029 ∨ n = 0x202F ∨ n = 0x205F ∨ n = 0x3000)

/-- Python `s.strip()`: drop leading and trailing whitespace. -/
def pyStrip (s : String) : String :=
  ⟨((s.toList.dropWhile pyIsSpace).reverse.dropWhile pyIsSpace).reverse⟩

/-- `normalize_symbol` (`utils.py` lines 6-26): `symbol.strip().upper()`.
Python `str.upper()` is modelled by ASCII upper-casing, which coincides with
it on the stock-symbol alphabet. -/
def normalize_symbol (symbol : String) : String :=
  pyUpper (pyStrip symbol)

/-- The `lang_map` dict of `normalize_language` (`utils.py` lines 59-66). -/
def langMap : List (String × String) :=
  [("en", "en"), ("eng", "en"), ("english", "en"),
    ("th", "th"), ("tha", "th"), ("thai", "th")]

/-- `normalize_language` (`utils.py` lines 29-78):
`lang_map.get(lang.strip().lower())`, raising `ValueError` (modelled by
`none`) when the lookup misses.  Python `str.lower()` is modelled by ASCII
lower-casing, which coincides with it on the accepted language codes. -/
def normalize_language (lang : String) : Option String :=
  alistGet langMap (pyLower (pyStrip lang))

/-- The validation errors raised by the service before any network request. -/
inductive ServiceError where
  | invalidLanguage
  | emptySymbol
deriving DecidableEq

def SET_BASE_URL : String := "https://www.set.or.th"

/-- `SET_BOARD_OF_DIRECTOR_ENDPOINT.format(symbol=symbol)`
(`constants.py` line 14). -/
def boardOfDirectorEndpoint (symbol : String) : String :=
  "/api/set/company/" ++ symbol ++ "/board-of-director"

/-- The validation-and-dispatch prefix of
`BoardOfDirectorService.fetch_board_of_directors` (`board_of_director.py`
lines 70-94): normalize the symbol, normalize the language (raising
`ValueError` on an invalid code), reject an empty symbol, and only then call
`AsyncDataFetcher.fetch` on the built URL.  The second component counts the
`fetch` calls made, so a validation error is raised with zero network
activity. -/
def fetchBoardOfDirectorsRequest (symbol lang : String) :
    Except ServiceError String × Nat :=
  let sym := normalize_symbol symbol
  match normalize_language lang with
  | none => (.error .invalidLanguage, 0)
  | some l =>
    if sym = "" then (.error .emptySymbol, 0)
    else
      (.ok (SET_BASE_URL ++ boardOfDirectorEndpoint sym ++ "?lang=" ++ l), 1)

/-- The cookie map of the cache entry stored under `key`, if one is
present. -/
def cachedCookies (c : SessionCacheState) (key : String) (now : Nat) :
    Option (List (String × String)) :=
  (cacheGet c key now).map (fun d => pyCookies d "cookies")

/-! ## Theorems

All definitions above embed the source; everything below proves properties of
them, ending in the claim theorems. -/

theorem alistGet_alistSet_self {α : Type} (l : List (String × α)) (k : String)
    (v : α) : alistGet (alistSet l k v) k = some v := by
  induction l with
  | nil => simp [alistSet, alistGet]
  | cons hd tl ih =>
    by_cases h : hd.1 = k
    · simp [alistSet, alistGet, h]
    · simp [alistSet, alistGet, h, ih]

theorem alistGet_alistSet_ne {α : Type} (l : List (String × α)) (k k' : String)
    (v : α) (h : k ≠ k') : alistGet (alistSet l k v) k' = alistGet l k' := by
  induction l with
  | nil => simp [alistSet, alistGet, h]
  | cons hd tl ih =>
    by_cases hh : hd.1 = k
    · simp [alistSet, alistGet, hh, h]
    · simp [alistSet, alistGet, hh, ih]

theorem alistGet_alistRemove_self {α : Type} (l : List (String × α))
    (k : String) : alistGet (alistRemove l k) k = none := by
  induction l with
  | nil => simp [alistRemove, alistGet]
  | cons hd tl ih =>
    by_cases h : hd.1 = k
    · simp [alistRemove, h, ih]
    · simp [alistRemove, alistGet, h, ih]

theorem validCodePoint_iff (x : Nat) :
    ValidCodePoint x ↔ (x < 0xD800 ∨ (0xE000 ≤ x ∧ x < 0x110000)) := by
  unfold ValidCodePoint
  omega

set_option maxHeartbeats 1600000 in
theorem utf8DecodeOne_length (b : Nat) (rest : List Nat) (cp : Nat)
    (rest' : List Nat) (h : utf8DecodeOne b rest = some (cp, rest')) :
    rest'.length ≤ rest.length := by
  unfold utf8DecodeOne at h
  cases rest with
  | nil =>
    split_ifs at h <;> simp_all
  | cons c1 r1 =>
    cases r1 with
    | nil =>
      split_ifs at h <;> simp_all
    | cons c2 r2 =>
      cases r2 with
      | nil =>
        split_ifs at h <;> simp_all <;> omega
      | cons c3 r3 =>
        split_ifs at h <;> simp_all <;> omega

set_option maxHeartbeats 1600000 in
theorem utf8DecodeOne_valid (b : Nat) (rest : List Nat) (cp : Nat)
    (rest' : List Nat) (h : utf8DecodeOne b rest = some (cp, rest')) :
    ValidCodePoint cp := by
  rw [validCodePoint_iff]
  unfold utf8DecodeOne at h
  cases rest with
  | nil =>
    split_ifs at h <;> (try simp_all) <;> (try omega)
  | cons c1 r1 =>
    cases r1 with
    | nil =>
      split_ifs at h <;> (try simp_all) <;> (try omega)
    | cons c2 r2 =>
      cases r2 with
      | nil =>
        split_ifs at h <;> (try simp_all)
        all_goals try omega
        all_goals (by_cases h224 : b = 224 <;> by_cases h237 : b = 237 <;>
          (try simp_all) <;> omega)
      | cons c3 r3 =>
        split_ifs at h <;> (try simp_all)
        all_goals try omega
        all_goals (by_cases h224 : b = 224 <;> by_cases h237 : b = 237 <;>
          (try simp_all) <;> (try omega))
        all_goals (by_cases h240 : b = 240 <;> by_cases h244 : b = 244 <;>
          (try simp_all) <;> omega)

/-- Fuel irrelevance: any fuel at least the list length gives the same
result, so the `l.length` fuel in `utf8Decode` never runs out. -/
theorem utf8DecodeAux_congr :
    ∀ (fuel fuel' : Nat) (l : List Nat), l.length ≤ fuel →
      l.length ≤ fuel' → utf8DecodeAux fuel l = utf8DecodeAux fuel' l := by
  intro fuel
  induction fuel with
  | zero =>
    intro fuel' l hl hl'
    cases l with
    | nil => cases fuel' <;> rfl
    | cons b rest => simp at hl
  | succ fuel ih =>
    intro fuel' l hl hl'
    cases l with
    | nil => cases fuel' <;> rfl
    | cons b rest =>
      cases fuel' with
      | zero => simp at hl'
      | succ fuel'' =>
        show (match utf8DecodeOne b rest with
          | none => none
          | some (cp, rest') =>
            (utf8DecodeAux fuel rest').map (fun cps => cp :: cps)) =
          (match utf8DecodeOne b rest with
          | none => none
          | some (cp, rest') =>
            (utf8DecodeAux fuel'' rest').map (fun cps => cp :: cps))
        cases hone : utf8DecodeOne b rest with
        | none => rfl
        | some pr =>
          obtain ⟨cp, rest'⟩ := pr
          have hlen := utf8DecodeOne_length b rest cp rest' hone
          simp only []
          rw [ih fuel'' rest' (by simp at hl; omega) (by simp at hl'; omega)]

theorem utf8Decode_valid :
    ∀ (l : List Nat) (cps : List Nat), utf8Decode l = some cps →
      ∀ x ∈ cps, ValidCodePoint x := by
  have aux : ∀ (fuel : Nat) (l : List Nat) (cps : List Nat),
      utf8DecodeAux fuel l = some cps → ∀ x ∈ cps, ValidCodePoint x := by
    intro fuel
    induction fuel with
    | zero =>
      intro l cps hdec x hx
      cases l with
      | nil =>
        simp [utf8DecodeAux] at hdec
        subst hdec
        simp at hx
      | cons b rest => simp [utf8DecodeAux] at hdec
    | succ fuel ih =>
      intro l cps hdec x hx
      cases l with
      | nil =>
        simp [utf8DecodeAux] at hdec
        subst hdec
        simp at hx
      | cons b rest =>
        rw [show utf8DecodeAux (fuel + 1) (b :: rest) =
            (match utf8DecodeOne b rest with
            | none => none
            | some (cp, rest') =>
              (utf8DecodeAux fuel rest').map (fun cps => cp :: cps)) from rfl]
          at hdec
        cases hone : utf8DecodeOne b rest with
        | none => rw [hone] at hdec; exact absurd hdec (by simp)
        | some pr =>
          obtain ⟨cp, rest'⟩ := pr
          rw [hone] at hdec
          simp only [Option.map_eq_some'] at hdec
          obtain ⟨cps', hdec', hcons⟩ := hdec
          subst hcons
          rcases List.mem_cons.mp hx with hxb | hxm
          · subst hxb
            exact utf8DecodeOne_valid b rest x rest' hone
          · exact ih rest' cps' hdec' x hxm
  intro l cps hdec
  exact aux l.length l cps hdec



/-! ## Further association-list lemmas -/

theorem alistGet_eq_none_of_not_mem {α : Type} (l : List (String × α))
    (k : String) (h : k ∉ l.map Prod.fst) : alistGet l k = none := by
  induction l with
  | nil => rfl
  | cons hd tl ih =>
    simp only [List.map_cons, List.mem_cons, not_or] at h
    have hne : hd.1 ≠ k := fun hk => h.1 hk.symm
    simp [alistGet, hne, ih h.2]

theorem alistGet_alistUpdate_of_none {α : Type} (d hs : List (String × α))
    (k : String) (h : alistGet hs k = none) :
    alistGet (alistUpdate d hs) k = alistGet d k := by
  induction hs generalizing d with
  | nil => rfl
  | cons hd tl ih =>
    have hne : hd.1 ≠ k := by
      intro hk
      simp [alistGet, hk] at h
    have htl : alistGet tl k = none := by
      simpa [alistGet, hne] using h
    show alistGet (alistUpdate (alistSet d hd.1 hd.2) tl) k = alistGet d k
    rw [ih _ htl, alistGet_alistSet_ne _ _ _ _ hne]

theorem alistGet_alistUpdate_of_some {α : Type} (d hs : List (String × α))
    (k : String) (v : α) (hnd : (hs.map Prod.fst).Nodup)
    (h : alistGet hs k = some v) :
    alistGet (alistUpdate d hs) k = some v := by
  induction hs generalizing d with
  | nil => simp [alistGet] at h
  | cons hd tl ih =>
    have hnd' : (tl.map Prod.fst).Nodup := (List.nodup_cons.mp hnd).2
    by_cases hk : hd.1 = k
    · have hv : hd.2 = v := by simpa [alistGet, hk] using h
      have hnotin : alistGet tl k = none := by
        apply alistGet_eq_none_of_not_mem
        rw [← hk]
        exact (List.nodup_cons.mp hnd).1
      show alistGet (alistUpdate (alistSet d hd.1 hd.2) tl) k = some v
      rw [alistGet_alistUpdate_of_none _ _ _ hnotin, hk, hv]
      exact alistGet_alistSet_self ..
    · have htl : alistGet tl k = some v := by simpa [alistGet, hk] using h
      exact ih _ hnd' htl

/-! ## Claim C1 -/

/-- C1 fails on the code: for a TFEX-origin URL, `AsyncDataFetcher` with
`use_session` dispatches through the manager instance keyed
`"set_chrome120"`, while the manager appropriate to the URL's origin (the one
`get_session_for_url` would select) is keyed `"tfex_chrome120"`. -/
theorem makeRequest_ignores_origin_counterexample :
    makeRequestInstanceKey defaultFetcherConfig
        "https://www.tfex.co.th/api/series" = "set_chrome120" ∧
    warmupSiteForUrl "https://www.tfex.co.th/api/series" = "tfex" ∧
    instanceKey (warmupSiteForUrl "https://www.tfex.co.th/api/series")
        defaultFetcherConfig.browser_impersonate = "tfex_chrome120" ∧
    ("set_chrome120" : String) ≠ "tfex_chrome120" := by decide

/-- C1 (amended): every URL fetched through `AsyncDataFetcher.fetch` with
`use_session` enabled is dispatched through the SessionManager instance keyed
`("set", browser)`, regardless of the URL's origin — `_make_request` never
consults `get_session_for_url`.  The registry itself is keyed by
`(origin, browser)`, so the SET and TFEX manager instances are distinct and
never share cookies. -/
theorem makeRequest_dispatches_to_set_instance (cfg : FetcherConfig)
    (url : String) :
    makeRequestInstanceKey cfg url = instanceKey "set" cfg.browser_impersonate ∧
    instanceKey "set" cfg.browser_impersonate ≠
      instanceKey "tfex" cfg.browser_impersonate := by
  refine ⟨rfl, ?_⟩
  intro h
  have hlen := congrArg String.length h
  simp only [instanceKey, String.length_append] at hlen
  have h3 : ("set" : String).length = 3 := rfl
  have h4 : ("tfex" : String).length = 4 := rfl
  omega

/-! ## Claim C6 -/

/-- C6 fails on the code: with a configured `user_agent` override, a
caller-supplied `User-Agent` header wins, because the override is applied to
the baseline set before `default_headers.update(headers)`. -/
theorem userAgent_override_counterexample :
    alistGet
      (prepareHeaders { defaultFetcherConfig with user_agent := some "Custom-UA" }
        (some [("User-Agent", "Caller-UA")]) none true "rnd")
      "User-Agent" = some "Caller-UA" ∧
    some "Caller-UA" ≠ some ("Custom-UA" : String) := by decide

/-- C6 (amended): in `AsyncDataFetcher.fetch`, the baseline header set is
merged with caller-supplied headers and the caller wins for every header name
it supplies (except `Cookie`, which the cookie step reassigns afterwards);
the configured `user_agent` override is applied to the baseline before the
merge, so the dispatched `User-Agent` equals the override exactly when the
caller did not supply a `User-Agent` header of their own. -/
theorem prepareHeaders_caller_wins (cfg : FetcherConfig)
    (hs : List (String × String)) (cookies : Option String)
    (use_random_cookies : Bool) (rnd : String)
    (hnd : (hs.map Prod.fst).Nodup) :
    (∀ k v, k ≠ "Cookie" → alistGet hs k = some v →
      alistGet (prepareHeaders cfg (some hs) cookies use_random_cookies rnd) k
        = some v) ∧
    (∀ ua, cfg.user_agent = some ua → alistGet hs "User-Agent" = none →
      alistGet (prepareHeaders cfg (some hs) cookies use_random_cookies rnd)
        "User-Agent" = some ua) := by
  constructor
  · intro k v hk h
    unfold prepareHeaders
    cases hua : cfg.user_agent with
    | none =>
      cases cookies with
      | some c =>
        rw [alistGet_alistSet_ne _ _ _ _ fun hc => hk hc.symm]
        exact alistGet_alistUpdate_of_some _ _ _ _ hnd h
      | none =>
        by_cases hur : use_random_cookies <;> simp only [hur, if_true, if_false]
        · rw [alistGet_alistSet_ne _ _ _ _ fun hc => hk hc.symm]
          exact alistGet_alistUpdate_of_some _ _ _ _ hnd h
        · exact alistGet_alistUpdate_of_some _ _ _ _ hnd h
    | some ua =>
      cases cookies with
      | some c =>
        rw [alistGet_alistSet_ne _ _ _ _ fun hc => hk hc.symm]
        exact alistGet_alistUpdate_of_some _ _ _ _ hnd h
      | none =>
        by_cases hur : use_random_cookies <;> simp only [hur, if_true, if_false]
        · rw [alistGet_alistSet_ne _ _ _ _ fun hc => hk hc.symm]
          exact alistGet_alistUpdate_of_some _ _ _ _ hnd h
        · exact alistGet_alistUpdate_of_some _ _ _ _ hnd h
  · intro ua hua hnone
    unfold prepareHeaders
    rw [hua]
    have hcook : ("Cookie" : String) ≠ "User-Agent" := by decide
    have base :
        alistGet (alistUpdate (alistSet fetchDefaultHeaders "User-Agent" ua) hs)
          "User-Agent" = some ua := by
      rw [alistGet_alistUpdate_of_none _ _ _ hnone]
      exact alistGet_alistSet_self ..
    cases cookies with
    | some c => rw [alistGet_alistSet_ne _ _ _ _ hcook]; exact base
    | none =>
      by_cases hur : use_random_cookies <;> simp only [hur, if_true, if_false]
      · rw [alistGet_alistSet_ne _ _ _ _ hcook]; exact base
      · exact base

/-- Witness for C6's amended theorem at a concrete configuration. -/
theorem prepareHeaders_caller_wins_witness :
    alistGet
      (prepareHeaders { defaultFetcherConfig with user_agent := some "Custom-UA" }
        (some [("Accept", "application/json")]) none true "rnd")
      "Accept" = some "application/json" ∧
    alistGet
      (prepareHeaders { defaultFetcherConfig with user_agent := some "Custom-UA" }
        (some [("Accept", "application/json")]) none true "rnd")
      "User-Agent" = some "Custom-UA" := by
  have h := prepareHeaders_caller_wins
    { defaultFetcherConfig with user_agent := some "Custom-UA" }
    [("Accept", "application/json")] none true "rnd" (by decide)
  exact ⟨h.1 "Accept" "application/json" (by decide) (by decide),
    h.2 "Custom-UA" rfl (by decide)⟩

/-! ## Claim C9 -/

/-- C9: `SessionCache.set(key, value, ttl)` mutates the caller's dict in
place before storing it: afterwards the dict holds `"cached_at"` equal to the
current time and `"ttl"` equal to the effective TTL (overwriting any values
the caller had stored under those keys), every other key of the dict is
unchanged, and the stored cache entry is exactly that mutated dict. -/
theorem cacheSet_mutates_caller_dict (c : SessionCacheState) (key : String)
    (v : PyDict) (ttl : Option Nat) (now : Nat) :
    alistGet (cacheSet c key v ttl now).2.1 "cached_at" =
      some (.num now) ∧
    alistGet (cacheSet c key v ttl now).2.1 "ttl" =
      some (.num (effectiveTtl c ttl)) ∧
    (∀ k, k ≠ "cached_at" → k ≠ "ttl" →
      alistGet (cacheSet c key v ttl now).2.1 k = alistGet v k) ∧
    alistGet (cacheSet c key v ttl now).1.store key =
      some { value := (cacheSet c key v ttl now).2.1,
             expire_at := now + effectiveTtl c ttl } := by
  refine ⟨?_, ?_, ?_, ?_⟩
  · show alistGet (alistSet (alistSet v "cached_at" _) "ttl" _) "cached_at" = _
    rw [alistGet_alistSet_ne _ _ _ _ (by decide)]
    exact alistGet_alistSet_self ..
  · exact alistGet_alistSet_self ..
  · intro k h1 h2
    show alistGet (alistSet (alistSet v "cached_at" _) "ttl" _) k = _
    rw [alistGet_alistSet_ne _ _ _ _ fun hh => h2 hh.symm,
      alistGet_alistSet_ne _ _ _ _ fun hh => h1 hh.symm]
  · exact alistGet_alistSet_self ..

/-- Witness for C9 at a concrete dict that already holds `"ttl"` and an
unrelated `"cookies"` entry. -/
theorem cacheSet_mutates_caller_dict_witness :
    alistGet
      (cacheSet (emptySessionCache 3600) "k"
        [("cookies", PyVal.cookies [("a", "b")]), ("ttl", PyVal.num 7)]
        (some 60) 1000).2.1 "cached_at" = some (.num 1000) ∧
    alistGet
      (cacheSet (emptySessionCache 3600) "k"
        [("cookies", PyVal.cookies [("a", "b")]), ("ttl", PyVal.num 7)]
        (some 60) 1000).2.1 "ttl" = some (.num 60) ∧
    alistGet
      (cacheSet (emptySessionCache 3600) "k"
        [("cookies", PyVal.cookies [("a", "b")]), ("ttl", PyVal.num 7)]
        (some 60) 1000).2.1 "cookies" =
      some (PyVal.cookies [("a", "b")]) := by
  have h := cacheSet_mutates_caller_dict (emptySessionCache 3600) "k"
    [("cookies", PyVal.cookies [("a", "b")]), ("ttl", PyVal.num 7)]
    (some 60) 1000
  refine ⟨h.1, ?_, ?_⟩
  · have := h.2.1
    simpa using this
  · have := h.2.2.1 "cookies" (by decide) (by decide)
    simpa using this

/-! ## Claim C7 -/

/-- C7 fails on the code at `ttl = 0`: Python's `ttl = ttl or
self.default_ttl` treats `0` as falsy, so the entry is stored (and checked)
with the default TTL, and `is_expired(key, max_age=0)` is still false one
second after the capture time even though the claim demands it be true for
every TTL `T` once the current time exceeds the capture time by more than
`T`. -/
theorem cache_ttl_zero_counterexample :
    cacheIsExpired
      (cacheSet (emptySessionCache 3600) "set_session_chrome120"
        [("cookies", PyVal.cookies [("incap_ses", "abc")])] (some 0) 1000).1
      "set_session_chrome120" (some 0) 1001 = false ∧
    1000 + 0 < 1001 := by decide

/-- C7 (amended): for every key, cookie-map value and positive TTL `T`,
`set(key, value, ttl=T)` followed immediately by `get(key)` returns the
stored dict, whose cookie map equals the caller's; `is_expired(key,
max_age=T)` is false immediately after the set and becomes true exactly when
the current time exceeds the recorded capture time by more than `T`; and
`is_expired` is also true whenever the key is absent from the store. -/
theorem cache_round_trip_spec (c : SessionCacheState) (key : String)
    (v : PyDict) (T now now' : Nat) (hT : 0 < T) :
    cacheGet (cacheSet c key v (some T) now).1 key now =
      some (cacheSet c key v (some T) now).2.1 ∧
    pyCookies (cacheSet c key v (some T) now).2.1 "cookies" =
      pyCookies v "cookies" ∧
    cacheIsExpired (cacheSet c key v (some T) now).1 key (some T) now =
      false ∧
    (cacheIsExpired (cacheSet c key v (some T) now).1 key (some T) now' = true
      ↔ now + T < now') ∧
    (∀ (c' : SessionCacheState) (k' : String) (ma : Option Nat) (n : Nat),
      alistGet c'.store k' = none → cacheIsExpired c' k' ma n = true) := by
  have hTT : ∀ c'' : SessionCacheState, effectiveTtl c'' (some T) = T := by
    intro c''
    show (if T = 0 then c''.default_ttl else T) = T
    rw [if_neg (by omega)]
  have hstore :
      alistGet (cacheSet c key v (some T) now).1.store key =
        some { value := (cacheSet c key v (some T) now).2.1,
               expire_at := now + T } := by
    show alistGet
      (alistSet c.store key
        { value := (cacheSet c key v (some T) now).2.1,
          expire_at := now + effectiveTtl c (some T) }) key = _
    rw [alistGet_alistSet_self, hTT]
  have hget : cacheGet (cacheSet c key v (some T) now).1 key now =
      some (cacheSet c key v (some T) now).2.1 := by
    unfold cacheGet
    rw [hstore]
    simp
  have hcachedAt :
      alistGet (cacheSet c key v (some T) now).2.1 "cached_at" =
        some (.num now) := by
    show alistGet (alistSet (alistSet v "cached_at" _) "ttl" _) "cached_at" = _
    rw [alistGet_alistSet_ne _ _ _ _ (by decide)]
    exact alistGet_alistSet_self ..
  refine ⟨hget, ?_, ?_, ?_, ?_⟩
  · show pyCookies (alistSet (alistSet v "cached_at" _) "ttl" _) "cookies" = _
    unfold pyCookies
    rw [alistGet_alistSet_ne _ _ _ _ (by decide),
      alistGet_alistSet_ne _ _ _ _ (by decide)]
  · unfold cacheIsExpired
    rw [hget]
    simp [pyNum, hcachedAt]
  · unfold cacheIsExpired cacheGet
    rw [hstore]
    by_cases hlt : now + T < now'
    · simp [hlt]
    · simp only [if_neg hlt, pyNum, hcachedAt, hTT]
      simp [hlt]
      omega
  · intro c' k' ma n habs
    unfold cacheIsExpired cacheGet
    rw [habs]

/-- Witness for C7's amended theorem at a concrete cache, TTL 60 and times
1000 / 1061. -/
theorem cache_round_trip_spec_witness :
    cacheGet
      (cacheSet (emptySessionCache 3600) "set_session_chrome120"
        [("cookies", PyVal.cookies [("a", "b")])] (some 60) 1000).1
      "set_session_chrome120" 1000 =
      some
        (cacheSet (emptySessionCache 3600) "set_session_chrome120"
          [("cookies", PyVal.cookies [("a", "b")])] (some 60) 1000).2.1 ∧
    cacheIsExpired
      (cacheSet (emptySessionCache 3600) "set_session_chrome120"
        [("cookies", PyVal.cookies [("a", "b")])] (some 60) 1000).1
      "set_session_chrome120" (some 60) 1000 = false ∧
    (cacheIsExpired
      (cacheSet (emptySessionCache 3600) "set_session_chrome120"
        [("cookies", PyVal.cookies [("a", "b")])] (some 60) 1000).1
      "set_session_chrome120" (some 60) 1061 = true ↔ 1000 + 60 < 1061) := by
  have h := cache_round_trip_spec (emptySessionCache 3600)
    "set_session_chrome120" [("cookies", PyVal.cookies [("a", "b")])]
    60 1000 1061 (by decide)
  exact ⟨h.1, h.2.2.1, h.2.2.2.1⟩

/-! ## Claim C8 -/

/-- Case analysis of the `lang_map` lookup. -/
theorem langMap_lookup (u : String) :
    alistGet langMap u =
      if "en" = u then some "en"
      else if "eng" = u then some "en"
      else if "english" = u then some "en"
      else if "th" = u then some "th"
      else if "tha" = u then some "th"
      else if "thai" = u then some "th"
      else none := rfl

/-- C8 fails on the code: `"English"` is not one of the ten listed inputs,
yet `normalize_language` returns `"en"` for it instead of raising a
validation error, because the code lower-cases its input before the lookup. -/
theorem normalize_language_counterexample :
    normalize_language "English" = some "en" ∧
    ("English" : String) ∉
      ["en", "EN", "eng", "english", "ENGLISH",
        "th", "TH", "tha", "thai", "THAI"] := by decide

/-- C8 (amended): `normalize_language` returns `"en"` for every input whose
whitespace-stripped, lower-cased form is `en`/`eng`/`english` (which covers
en, EN, eng, english, ENGLISH), `"th"` for every input whose stripped
lower-cased form is `th`/`tha`/`thai` (covering th, TH, tha, thai, THAI), and
raises a `ValueError` exactly for every other string; in
`BoardOfDirectorService.fetch_board_of_directors` this error is raised
synchronously before any network activity (zero fetch calls). -/
theorem normalize_language_spec (s sym : String) :
    (pyLower (pyStrip s) ∈ (["en", "eng", "english"] : List String) →
      normalize_language s = some "en") ∧
    (pyLower (pyStrip s) ∈ (["th", "tha", "thai"] : List String) →
      normalize_language s = some "th") ∧
    (normalize_language s = none ↔
      pyLower (pyStrip s) ∉
        (["en", "eng", "english", "th", "tha", "thai"] : List String)) ∧
    (normalize_language s = none →
      fetchBoardOfDirectorsRequest sym s = (.error .invalidLanguage, 0)) := by
  have main : ∀ u : String,
      (u ∈ (["en", "eng", "english"] : List String) →
        alistGet langMap u = some "en") ∧
      (u ∈ (["th", "tha", "thai"] : List String) →
        alistGet langMap u = some "th") ∧
      (alistGet langMap u = none ↔
        u ∉ (["en", "eng", "english", "th", "tha", "thai"] : List String)) := by
    intro u
    rw [langMap_lookup]
    by_cases h1 : "en" = u
    · cases h1; exact ⟨fun _ => by decide, by decide, by decide⟩
    by_cases h2 : "eng" = u
    · cases h2; exact ⟨fun _ => by decide, by decide, by decide⟩
    by_cases h3 : "english" = u
    · cases h3; exact ⟨fun _ => by decide, by decide, by decide⟩
    by_cases h4 : "th" = u
    · cases h4; exact ⟨by decide, fun _ => by decide, by decide⟩
    by_cases h5 : "tha" = u
    · cases h5; exact ⟨by decide, fun _ => by decide, by decide⟩
    by_cases h6 : "thai" = u
    · cases h6; exact ⟨by decide, fun _ => by decide, by decide⟩
    rw [if_neg h1, if_neg h2, if_neg h3, if_neg h4, if_neg h5, if_neg h6]
    refine ⟨?_, ?_, ?_⟩
    · intro hmem
      simp only [List.mem_cons, List.not_mem_nil, or_false] at hmem
      rcases hmem with h | h | h
      · exact absurd h.symm h1
      · exact absurd h.symm h2
      · exact absurd h.symm h3
    · intro hmem
      simp only [List.mem_cons, List.not_mem_nil, or_false] at hmem
      rcases hmem with h | h | h
      · exact absurd h.symm h4
      · exact absurd h.symm h5
      · exact absurd h.symm h6
    · constructor
      · intro _ hmem
        simp only [List.mem_cons, List.not_mem_nil, or_false] at hmem
        rcases hmem with h | h | h | h | h | h
        · exact h1 h.symm
        · exact h2 h.symm
        · exact h3 h.symm
        · exact h4 h.symm
        · exact h5 h.symm
        · exact h6 h.symm
      · intro _; rfl
  have h := main (pyLower (pyStrip s))
  refine ⟨h.1, h.2.1, h.2.2, ?_⟩
  intro hnone
  unfold fetchBoardOfDirectorsRequest
  rw [show normalize_language s = none from hnone]

/-- Witness for C8's amended theorem: the claimed inputs normalize as stated,
and an invalid code fails the service with zero network calls. -/
theorem normalize_language_spec_witness :
    normalize_language "EN" = some "en" ∧
    normalize_language "THAI" = some "th" ∧
    fetchBoardOfDirectorsRequest "CPALL" "xx" =
      (.error .invalidLanguage, 0) := by
  exact ⟨(normalize_language_spec "EN" "CPALL").1 (by decide),
    (normalize_language_spec "THAI" "CPALL").2.1 (by decide),
    (normalize_language_spec "xx" "CPALL").2.2.2 (by decide)⟩

/-! ## Claim C4 -/

/-- Characterization of `ensure_initialized` starting from an uninitialized
manager whose cache lookup misses: the fast path falls through and a warmup
GET is issued, with the three outcomes of the source's try/except and
status-200 split. -/
theorem ensureInitialized_characterization (st : ManagerState)
    (cache : SessionCacheState) (force : Bool) (now : Nat)
    (wu : WarmupOutcome) (hready : st.ready = false)
    (hmiss : cacheGet cache st.cache_key now = none) :
    ensureInitialized st cache force now wu =
      match wu with
      | .exn _ =>
        ⟨{ st with session := some (st.session.getD []), ready := true },
          cache, true, false⟩
      | .resp status cookies =>
        let jar := alistUpdate (st.session.getD []) cookies
        let st2 := { st with
          session := some jar
          ready := true
          last_warmup_time := now }
        if status = 200 then ⟨st2, saveToCache st2 cache now, true, false⟩
        else ⟨st2, cache, true, false⟩ := by
  have hload : tryLoadFromCache st cache now = ⟨st, cache, false⟩ := by
    by_cases he : st.enable_cache = false <;>
      simp [tryLoadFromCache, he, hmiss]
  have hafter :
      (if force = false ∧ st.ready = false then tryLoadFromCache st cache now
        else ⟨st, cache, false⟩) = (⟨st, cache, false⟩ : LoadResult) := by
    by_cases hf : force = false ∧ st.ready = false
    · rw [if_pos hf, hload]
    · rw [if_neg hf]
  simp only [ensureInitialized, hafter, Bool.false_eq_true, if_false]
  have hneeds : (force = true ∨ st.ready = false ∨
      now - st.last_warmup_time > st.warmup_interval) :=
    Or.inr (Or.inl hready)
  rw [if_pos hneeds]

/-- Cookie map actually persisted by `_save_to_cache` when caching is
enabled and the jar is non-empty. -/
theorem cachedCookies_saveToCache (st : ManagerState)
    (cache : SessionCacheState) (now : Nat) (jar : List (String × String))
    (hen : st.enable_cache = true) (hsess : st.session = some jar)
    (hjar : jar.isEmpty = false) :
    cachedCookies (saveToCache st cache now) st.cache_key now = some jar := by
  have hen' : ¬(st.enable_cache = false) := by simp [hen]
  unfold saveToCache
  rw [if_neg hen', hsess]
  simp only [hjar, Bool.false_eq_true, if_false]
  simp only [cacheSet]
  unfold cachedCookies cacheGet
  rw [alistGet_alistSet_self]
  have hexp : ¬(now + effectiveTtl cache (some st.cache_ttl) < now) := by omega
  simp only [hexp, if_false, Option.map_some']
  unfold pyCookies
  rw [alistGet_alistSet_ne _ _ _ _ (by decide),
    alistGet_alistSet_ne _ _ _ _ (by decide)]
  simp [alistGet]

/-- C4 fails on the code: a warmup response with status 500 (non-exception,
non-200) marks the manager initialized and records the warmup timestamp, but
nothing is persisted to the cookie cache — the non-200 branch of
`ensure_initialized` never calls `_save_to_cache`. -/
theorem warmup_non200_counterexample :
    (ensureInitialized (mkSessionManager "chrome120" 3600 true "set")
      (emptySessionCache 3600) false 1000
      (.resp 500 [("c1", "v1")])).warmed = true ∧
    (ensureInitialized (mkSessionManager "chrome120" 3600 true "set")
      (emptySessionCache 3600) false 1000
      (.resp 500 [("c1", "v1")])).st.ready = true ∧
    (ensureInitialized (mkSessionManager "chrome120" 3600 true "set")
      (emptySessionCache 3600) false 1000
      (.resp 500 [("c1", "v1")])).st.last_warmup_time = 1000 ∧
    alistGet
      (ensureInitialized (mkSessionManager "chrome120" 3600 true "set")
        (emptySessionCache 3600) false 1000
        (.resp 500 [("c1", "v1")])).cache.store
      "set_session_chrome120" = none := by decide

/-- C4 (amended): for every warmup request inside `ensure_initialized` that
completes without raising — whatever its status — the manager marks itself
initialized (Ready) and records the warmup timestamp; but the session cookies
are persisted to the cookie cache under the `{origin}_session_{browser}` key
only when the status is 200 (with caching enabled and a non-empty cookie
jar); on any other status nothing is written to the cache. -/
theorem ensureInitialized_nonexception_spec (st : ManagerState)
    (cache : SessionCacheState) (force : Bool) (now status : Nat)
    (ck : List (String × String))
    (hready : st.ready = false)
    (hmiss : cacheGet cache st.cache_key now = none) :
    (ensureInitialized st cache force now (.resp status ck)).warmed = true ∧
    (ensureInitialized st cache force now (.resp status ck)).st.ready = true ∧
    (ensureInitialized st cache force now
      (.resp status ck)).st.last_warmup_time = now ∧
    (ensureInitialized st cache force now (.resp status ck)).st.session =
      some (alistUpdate (st.session.getD []) ck) ∧
    (status = 200 → st.enable_cache = true →
      (alistUpdate (st.session.getD []) ck).isEmpty = false →
      cachedCookies
        (ensureInitialized st cache force now (.resp status ck)).cache
        st.cache_key now = some (alistUpdate (st.session.getD []) ck)) ∧
    (status ≠ 200 →
      (ensureInitialized st cache force now (.resp status ck)).cache
        = cache) := by
  have h := ensureInitialized_characterization st cache force now
    (.resp status ck) hready hmiss
  by_cases hs200 : status = 200
  · subst hs200
    rw [h]
    simp only [if_pos rfl]
    refine ⟨rfl, rfl, rfl, rfl, ?_, ?_⟩
    · intro _ hen hjar
      exact cachedCookies_saveToCache
        { st with
          session := some (alistUpdate (st.session.getD []) ck)
          ready := true
          last_warmup_time := now }
        cache now (alistUpdate (st.session.getD []) ck) hen rfl hjar
    · intro hne
      exact absurd rfl hne
  · rw [h]
    simp only [if_neg hs200]
    exact ⟨trivial, trivial, trivial, trivial,
      fun h200 => absurd h200 hs200, fun _ => trivial⟩

/-- Witness for C4's amended theorem: a 200 warmup on a fresh manager marks
it Ready and persists the captured cookies under the cache key. -/
theorem ensureInitialized_nonexception_spec_witness :
    (ensureInitialized (mkSessionManager "chrome120" 3600 true "set")
      (emptySessionCache 3600) false 1000
      (.resp 200 [("a", "1")])).st.ready = true ∧
    cachedCookies
      (ensureInitialized (mkSessionManager "chrome120" 3600 true "set")
        (emptySessionCache 3600) false 1000 (.resp 200 [("a", "1")])).cache
      (mkSessionManager "chrome120" 3600 true "set").cache_key 1000 =
      some (alistUpdate
        ((mkSessionManager "chrome120" 3600 true "set").session.getD [])
        [("a", "1")]) := by
  have h := ensureInitialized_nonexception_spec
    (mkSessionManager "chrome120" 3600 true "set") (emptySessionCache 3600)
    false 1000 200 [("a", "1")] (by decide) (by decide)
  exact ⟨h.2.1, h.2.2.2.2.1 rfl (by decide) (by decide)⟩

/-! ## Claim C10 -/

/-- An initialized manager whose last warmup lies further in the past than
the warmup interval re-enters the warmup path on `ensure_initialized`. -/
theorem ensureInitialized_stale_rewarms (st : ManagerState)
    (cache : SessionCacheState) (now : Nat) (wu : WarmupOutcome)
    (hready : st.ready = true)
    (hstale : st.warmup_interval < now - st.last_warmup_time) :
    (ensureInitialized st cache false now wu).warmed = true := by
  have hfast :
      (if (false : Bool) = false ∧ st.ready = false then
        tryLoadFromCache st cache now
      else ⟨st, cache, false⟩) = (⟨st, cache, false⟩ : LoadResult) := by
    rw [if_neg]
    simp [hready]
  unfold ensureInitialized
  rw [hfast]
  simp only []
  rw [if_pos (Or.inr (Or.inr hstale))]
  rw [if_neg (show ¬((false : Bool) = true) from by decide)]
  cases wu with
  | exn msg => rfl
  | resp status cookies =>
    simp only []
    split <;> rfl

/-- C10: if the warmup request inside `ensure_initialized` raises a transport
exception, the manager sets its initialized flag but leaves the last-warmup
timestamp unchanged; consequently, when no warmup has ever succeeded
(timestamp still 0) every subsequent `ensure_initialized` call whose current
time exceeds the warmup interval re-enters the warmup path instead of being a
no-op. -/
theorem warmup_exception_retried_spec (st : ManagerState)
    (cache : SessionCacheState) (force : Bool) (now now' : Nat) (msg : String)
    (wu' : WarmupOutcome)
    (hready : st.ready = false)
    (hmiss : cacheGet cache st.cache_key now = none)
    (hnow' : st.warmup_interval < now') :
    (ensureInitialized st cache force now (.exn msg)).st.ready = true ∧
    (ensureInitialized st cache force now (.exn msg)).st.last_warmup_time =
      st.last_warmup_time ∧
    (st.last_warmup_time = 0 →
      (ensureInitialized (ensureInitialized st cache force now (.exn msg)).st
        (ensureInitialized st cache force now (.exn msg)).cache
        false now' wu').warmed = true) := by
  have h := ensureInitialized_characterization st cache force now (.exn msg)
    hready hmiss
  rw [h]
  refine ⟨rfl, rfl, ?_⟩
  intro h0
  apply ensureInitialized_stale_rewarms
  · rfl
  · show st.warmup_interval < now' - st.last_warmup_time
    omega

/-- Witness for C10 at a concrete manager whose warmup GET raises. -/
theorem warmup_exception_retried_spec_witness :
    (ensureInitialized (mkSessionManager "chrome120" 3600 true "set")
      (emptySessionCache 3600) false 1000 (.exn "timeout")).st.ready = true ∧
    (ensureInitialized (mkSessionManager "chrome120" 3600 true "set")
      (emptySessionCache 3600) false 1000
      (.exn "timeout")).st.last_warmup_time =
      (mkSessionManager "chrome120" 3600 true "set").last_warmup_time ∧
    (ensureInitialized
      (ensureInitialized (mkSessionManager "chrome120" 3600 true "set")
        (emptySessionCache 3600) false 1000 (.exn "timeout")).st
      (ensureInitialized (mkSessionManager "chrome120" 3600 true "set")
        (emptySessionCache 3600) false 1000 (.exn "timeout")).cache
      false 4000 (.resp 200 [("a", "1")])).warmed = true := by
  have h := warmup_exception_retried_spec
    (mkSessionManager "chrome120" 3600 true "set") (emptySessionCache 3600)
    false 1000 4000 "timeout" (.resp 200 [("a", "1")])
    (by decide) (by decide) (by decide)
  exact ⟨h.1, h.2.1, h.2.2 (by decide)⟩

/-! ## Claim C2 -/

/-- C2: for a call to `SessionManager.get` with auto-retry enabled, from an
initialized and fresh manager (so the leading `ensure_initialized` is a
no-op) with caching enabled: if the first response's status is 403 or 452,
the cache entry is deleted, exactly one forced warmup is issued, the GET is
retried exactly once, and the second response is returned unmodified whatever
its status (two transport GETs in total); for any other first status, the
first response is returned with no re-warm and the cache untouched. -/
theorem smGet_bot_detection_spec (st : ManagerState)
    (cache : SessionCacheState) (jar : List (String × String)) (now : Nat)
    (responses : Nat → SmResponse) (wus : Nat → WarmupOutcome)
    (hready : st.ready = true)
    (hfresh : now - st.last_warmup_time ≤ st.warmup_interval)
    (hsession : st.session = some jar)
    (hcache : st.enable_cache = true) :
    (((responses 0).status_code = 403 ∨ (responses 0).status_code = 452) →
      (smGet st cache true now responses wus).response = .ok (responses 1) ∧
      (smGet st cache true now responses wus).stats = ⟨2, 1, true⟩ ∧
      alistGet (cacheDelete cache st.cache_key).store st.cache_key = none) ∧
    (¬((responses 0).status_code = 403 ∨ (responses 0).status_code = 452) →
      (smGet st cache true now responses wus).response = .ok (responses 0) ∧
      (smGet st cache true now responses wus).stats = ⟨1, 0, false⟩ ∧
      (smGet st cache true now responses wus).cache = cache) := by
  have he1 : ensureInitialized st cache false now (wus 0) =
      ⟨st, cache, false, false⟩ := by
    have hfast :
        (if (false : Bool) = false ∧ st.ready = false then
          tryLoadFromCache st cache now
        else ⟨st, cache, false⟩) = (⟨st, cache, false⟩ : LoadResult) := by
      rw [if_neg]
      simp [hready]
    unfold ensureInitialized
    rw [hfast]
    simp only []
    rw [if_neg (show ¬((false : Bool) = true ∨ st.ready = false ∨
        now - st.last_warmup_time > st.warmup_interval) from by
      intro hor
      rcases hor with hh | hh | hh
      · exact absurd hh (by decide)
      · rw [hready] at hh
        exact absurd hh (by decide)
      · omega)]
    rw [if_neg (show ¬((false : Bool) = true) from by decide)]
  unfold smGet
  rw [he1]
  simp only [hsession]
  constructor
  · intro hbot
    rw [if_pos ⟨trivial, hbot⟩]
    refine ⟨rfl, ?_, ?_⟩
    · simp [hcache]
    · exact alistGet_alistRemove_self cache.store st.cache_key
  · intro hbot
    rw [if_neg (fun hand => hbot hand.2)]
    exact ⟨rfl, rfl, rfl⟩

/-- Witness for C2: a 403 then a 500 — the 500 retry response is returned
unmodified with two GETs, one forced warmup and the cache entry deleted. -/
theorem smGet_bot_detection_spec_witness :
    (smGet
      { mkSessionManager "chrome120" 3600 true "set" with
        ready := true
        session := some [("c", "v")] }
      (emptySessionCache 3600) true 100
      (fun n => if n = 0 then ⟨403, [("x", "y")]⟩ else ⟨500, [("z", "w")]⟩)
      (fun _ => .resp 200 [])).response = .ok ⟨500, [("z", "w")]⟩ ∧
    (smGet
      { mkSessionManager "chrome120" 3600 true "set" with
        ready := true
        session := some [("c", "v")] }
      (emptySessionCache 3600) true 100
      (fun n => if n = 0 then ⟨403, [("x", "y")]⟩ else ⟨500, [("z", "w")]⟩)
      (fun _ => .resp 200 [])).stats = ⟨2, 1, true⟩ := by
  have h := smGet_bot_detection_spec
    { mkSessionManager "chrome120" 3600 true "set" with
      ready := true
      session := some [("c", "v")] }
    (emptySessionCache 3600) [("c", "v")] 100
    (fun n => if n = 0 then ⟨403, [("x", "y")]⟩ else ⟨500, [("z", "w")]⟩)
    (fun _ => .resp 200 [])
    rfl (by decide) rfl rfl
  have hb := h.1 (Or.inl (by decide))
  refine ⟨?_, hb.2.1⟩
  rw [hb.1]
  rfl

/-! ## Claim C3 -/

/-- The retry loop when every attempt in its window fails: all attempts are
used, a back-off delay is slept after each attempt but the last, and the
failure carries the last attempt's exception. -/
theorem runAttempts_all_fail (t : Nat → Except String RawResponse) (d : Rat)
    (e : Nat → String) :
    ∀ (c a : Nat), 0 < c →
      (∀ i, a ≤ i → i < a + c → t i = Except.error (e i)) →
      runAttempts t d a c =
        .fail (some (e (a + c - 1))) c
          ((List.range' a (c - 1)).map fun i => d * 2 ^ i) := by
  intro c
  induction c with
  | zero =>
    intro a hc _
    omega
  | succ c ih =>
    intro a _ hf
    unfold runAttempts
    rw [hf a (Nat.le_refl a) (by omega)]
    show (if c = 0 then AttemptsResult.fail (some (e a)) 1 []
      else match runAttempts t d (a + 1) c with
        | AttemptsResult.ok r inv sleeps =>
          AttemptsResult.ok r (inv + 1) (d * 2 ^ a :: sleeps)
        | AttemptsResult.fail last inv sleeps =>
          AttemptsResult.fail last (inv + 1) (d * 2 ^ a :: sleeps)) = _
    by_cases hc0 : c = 0
    · subst hc0
      simp
    · rw [if_neg hc0]
      rw [ih (a + 1) (by omega) (fun i h1 h2 => hf i (by omega) (by omega))]
      have h1 : a + 1 + c - 1 = a + (c + 1) - 1 := by omega
      have h2 : List.range' a (c + 1 - 1) =
          a :: List.range' (a + 1) (c - 1) := by
        rw [show c + 1 - 1 = (c - 1) + 1 from by omega, List.range'_succ]
      rw [h1, h2, List.map_cons]

/-- The retry loop when the attempts before `N` fail and attempt `N`
succeeds: the loop stops at the first success. -/
theorem runAttempts_succeeds (t : Nat → Except String RawResponse) (d : Rat)
    (e : Nat → String) (r : RawResponse) (N : Nat)
    (hf : ∀ i, i < N → t i = Except.error (e i))
    (hs : t N = Except.ok r) :
    ∀ (c a : Nat), a ≤ N → N < a + c →
      runAttempts t d a c =
        .ok r (N - a + 1) ((List.range' a (N - a)).map fun i => d * 2 ^ i) := by
  intro c
  induction c with
  | zero =>
    intro a h1 h2
    omega
  | succ c ih =>
    intro a ha hN
    unfold runAttempts
    by_cases haN : a = N
    · subst haN
      rw [hs]
      simp
    · rw [hf a (by omega)]
      show (if c = 0 then AttemptsResult.fail (some (e a)) 1 []
        else match runAttempts t d (a + 1) c with
          | AttemptsResult.ok r inv sleeps =>
            AttemptsResult.ok r (inv + 1) (d * 2 ^ a :: sleeps)
          | AttemptsResult.fail last inv sleeps =>
            AttemptsResult.fail last (inv + 1) (d * 2 ^ a :: sleeps)) = _
      rw [if_neg (show ¬(c = 0) from by omega)]
      rw [ih (a + 1) (by omega) (by omega)]
      have h1 : N - (a + 1) + 1 + 1 = N - a + 1 := by omega
      have h2 : List.range' a (N - a) =
          a :: List.range' (a + 1) (N - (a + 1)) := by
        rw [show N - a = (N - (a + 1)) + 1 from by omega, List.range'_succ]
      show AttemptsResult.ok r (N - (a + 1) + 1 + 1)
        (d * 2 ^ a ::
          (List.range' (a + 1) (N - (a + 1))).map fun i => d * 2 ^ i) = _
      rw [h1, h2, List.map_cons]

/-- C3: for a transport that raises on the first `N` attempts and succeeds
thereafter: if `max_retries ≥ N`, `fetch` returns the successful
`FetchResponse` after exactly `N + 1` transport invocations; if
`max_retries < N`, `fetch` raises a single aggregated failure chained to the
last underlying exception after exactly `max_retries + 1` invocations.  In
both cases the loop sleeps `retry_delay * 2 ^ attempt` after every attempt
except the final one (the recorded sleeps list). -/
theorem fetch_retry_spec (cfg : FetcherConfig) (url : String)
    (headers : Option (List (String × String))) (cookies : Option String)
    (use_random_cookies : Bool) (randomCookies : String)
    (N : Nat) (e : Nat → String) (r : RawResponse)
    (t : Nat → Except String RawResponse)
    (hf : ∀ i, i < N → t i = Except.error (e i))
    (hs : ∀ i, N ≤ i → t i = Except.ok r) :
    (N ≤ cfg.max_retries →
      fetch cfg url headers cookies use_random_cookies randomCookies
          (fun _ => t) =
        (Except.ok (mkFetchResponse r),
          ⟨N + 1, (List.range N).map fun i => cfg.retry_delay * 2 ^ i⟩)) ∧
    (cfg.max_retries < N →
      fetch cfg url headers cookies use_random_cookies randomCookies
          (fun _ => t) =
        (Except.error
          ⟨fetchErrorMessage url (cfg.max_retries + 1),
            some (e cfg.max_retries)⟩,
          ⟨cfg.max_retries + 1,
            (List.range cfg.max_retries).map fun i =>
              cfg.retry_delay * 2 ^ i⟩)) := by
  constructor
  · intro hN
    unfold fetch
    simp only []
    rw [runAttempts_succeeds t cfg.retry_delay e r N hf (hs N (Nat.le_refl N))
      (cfg.max_retries + 1) 0 (by omega) (by omega)]
    simp [List.range_eq_range']
  · intro hN
    unfold fetch
    simp only []
    rw [runAttempts_all_fail t cfg.retry_delay e (cfg.max_retries + 1) 0
      (by omega) (fun i h1 h2 => hf i (by omega))]
    simp [List.range_eq_range']

/-- Witness for C3: one failure then success with `max_retries = 2` — two
invocations, one back-off sleep, successful result. -/
theorem fetch_retry_spec_witness :
    fetch { defaultFetcherConfig with max_retries := 2 } "https://example"
      none none false ""
      (fun _ i => if i = 0 then Except.error "boom"
        else Except.ok ⟨200, [72, 105], [], "u"⟩) =
    (Except.ok (mkFetchResponse ⟨200, [72, 105], [], "u"⟩),
      ⟨2, (List.range 1).map fun i =>
        ({ defaultFetcherConfig with
          max_retries := 2 } : FetcherConfig).retry_delay * 2 ^ i⟩) := by
  have h := fetch_retry_spec { defaultFetcherConfig with max_retries := 2 }
    "https://example" none none false "" 1 (fun _ => "boom")
    ⟨200, [72, 105], [], "u"⟩
    (fun i => if i = 0 then Except.error "boom"
      else Except.ok ⟨200, [72, 105], [], "u"⟩)
    (fun i hi => by
      have h0 : i = 0 := by omega
      subst h0
      rfl)
    (fun i hi => by
      have h0 : ¬(i = 0) := by omega
      simp [h0])
  exact h.1 (by decide)

/-! ## Claim C5 -/

/-- C5: for every response byte string, the `FetchResponse` produced by
`fetch` has `text` equal to the UTF-8 decoding of the content with encoding
`"utf-8"` when the content is valid UTF-8, and otherwise `text` equal to the
latin1 decoding (which succeeds for every byte string) with encoding
`"latin1"`; in either case every code point of `text` is a valid Unicode
scalar value, so `text` is always valid decoded Unicode and never null. -/
theorem fetch_decode_spec (cfg : FetcherConfig) (url : String)
    (headers : Option (List (String × String))) (cookies : Option String)
    (use_random_cookies : Bool) (randomCookies : String) (raw : RawResponse)
    (hbytes : ∀ b ∈ raw.content, b < 256) :
    (fetch cfg url headers cookies use_random_cookies randomCookies
      (fun _ _ => Except.ok raw)).1 = Except.ok (mkFetchResponse raw) ∧
    (∀ cps, utf8Decode raw.content = some cps →
      (mkFetchResponse raw).text = cps ∧
      (mkFetchResponse raw).encoding = "utf-8") ∧
    (utf8Decode raw.content = none →
      (mkFetchResponse raw).text = latin1Decode raw.content ∧
      (mkFetchResponse raw).encoding = "latin1") ∧
    (∀ x ∈ (mkFetchResponse raw).text, ValidCodePoint x) := by
  refine ⟨rfl, ?_, ?_, ?_⟩
  · intro cps h
    constructor
    · show (decodeContent raw.content).1 = cps
      unfold decodeContent
      rw [h]
    · show (decodeContent raw.content).2 = "utf-8"
      unfold decodeContent
      rw [h]
  · intro h
    constructor
    · show (decodeContent raw.content).1 = latin1Decode raw.content
      unfold decodeContent
      rw [h]
    · show (decodeContent raw.content).2 = "latin1"
      unfold decodeContent
      rw [h]
  · show ∀ x ∈ (decodeContent raw.content).1, ValidCodePoint x
    unfold decodeContent
    cases hdec : utf8Decode raw.content with
    | none =>
      intro x hx
      have hb := hbytes x hx
      rw [validCodePoint_iff]
      omega
    | some cps =>
      intro x hx
      exact utf8Decode_valid raw.content cps hdec x hx

/-- Witness for C5: a Thai UTF-8 body decodes as UTF-8, an invalid byte
falls back to latin1, and `fetch` returns the decoded response. -/
theorem fetch_decode_spec_witness :
    (mkFetchResponse ⟨200, [0xE0, 0xB8, 0x81], [], "u"⟩).text = [0x0E01] ∧
    (mkFetchResponse ⟨200, [0xE0, 0xB8, 0x81], [], "u"⟩).encoding = "utf-8" ∧
    (mkFetchResponse ⟨200, [0xFF], [], "u"⟩).text = latin1Decode [0xFF] ∧
    (mkFetchResponse ⟨200, [0xFF], [], "u"⟩).encoding = "latin1" ∧
    (fetch defaultFetcherConfig "u" none none false ""
      (fun _ _ => Except.ok ⟨200, [0xFF], [], "u"⟩)).1 =
      Except.ok (mkFetchResponse ⟨200, [0xFF], [], "u"⟩) := by
  have h1 := fetch_decode_spec defaultFetcherConfig "u" none none false ""
    ⟨200, [0xE0, 0xB8, 0x81], [], "u"⟩ (by decide)
  have h2 := fetch_decode_spec defaultFetcherConfig "u" none none false ""
    ⟨200, [0xFF], [], "u"⟩ (by decide)
  have hu := h1.2.1 [0x0E01] (by decide)
  have hl := h2.2.2.1 (by decide)
  exact ⟨hu.1, hu.2, hl.1, hl.2, h2.1⟩

end Settfex
